import Mathlib

/-!
Verification of the location-acquisition and range-based availability flow
of the laundry-service web client.

Shallow embedding conventions:
  - JavaScript numbers are modelled as rationals; strings as Lean strings.
  - Browser and network effects (geolocation, geocoding fetches, axios
    calls, localStorage writes, parent callbacks) are made explicit:
    fallible external calls become Except or Option inputs, and each
    handler is a pure function from the inputs and the component state to
    the resulting state or an explicit effects record.
  - JavaScript truthiness is modelled explicitly: jsOrS for string fields
    (empty string and undefined are falsy), jsOrQ for numeric fields
    (0 and undefined are falsy).
-/

/-- The truthiness-based default for optional string values: models the
JavaScript expression a member-or b, where undefined and the empty string
are falsy. -/
def jsOrS (s : Option String) (d : String) : String :=
  match s with
  | none => d
  | some v => if v = "" then d else v

/-- The truthiness-based default for optional numeric values: models the
JavaScript expression a member-or b, where undefined and 0 are falsy. -/
def jsOrQ (o : Option ℚ) (d : ℚ) : ℚ :=
  match o with
  | none => d
  | some v => if v = 0 then d else v

/-- Models the test `if (!token)` on a value read from localStorage:
null (absent) and the empty string are falsy. -/
def tokenFalsy (t : Option String) : Bool :=
  match t with
  | none => true
  | some s => s = ""

/-- JavaScript String.prototype.trim: removes leading and trailing
whitespace. Defined by structural recursion over the character list so
that concrete instances evaluate inside the kernel. -/
def jsTrim (s : String) : String :=
  ⟨((s.data.dropWhile Char.isWhitespace).reverse.dropWhile Char.isWhitespace).reverse⟩

/-- Location interface of LocationBasedServiceFilter:
lat, lng and an optional address string. -/
structure Location where
  lat : ℚ
  lng : ℚ
  address : Option String := none
deriving DecidableEq, Repr

/-- Washerman interface of LocationBasedServiceFilter (nested inside
Service records returned by the availability endpoint). -/
structure Washerman where
  id : String
  name : String
  contact : String
  range : ℚ
  locationLat : ℚ
  locationLng : ℚ
  distance : Option ℚ := none
deriving DecidableEq, Repr

/-- One price option of a Service. -/
structure ServiceOption where
  id : String
  name : String
  price : ℚ
deriving DecidableEq, Repr

/-- Service interface of LocationBasedServiceFilter. -/
structure Service where
  id : String
  title : String
  name : String
  category : String
  description : String
  image : String
  options : List ServiceOption
  washerman : Washerman
deriving DecidableEq, Repr

/-- The availability block of a ServiceAvailabilityResponse. -/
structure Availability where
  servicesAvailable : Bool
  totalServices : ℕ
  totalWashermen : ℕ
  inRangeWashermen : ℕ
  outOfRangeWashermen : ℕ
deriving DecidableEq, Repr

/-- ServiceAvailabilityResponse interface: body of a successful
POST /api/check-availability response. -/
structure ServiceAvailabilityResponse where
  success : Bool
  customerLocation : Location
  availability : Availability
  services : List Service
  message : String
  suggestion : Option String := none
deriving DecidableEq, Repr

/-- An axios error: HTTP status of the failed request, and the optional
message carried in the response body (err.response with data.message). -/
structure HttpError where
  status : ℕ
  message : Option String := none
deriving DecidableEq, Repr

/-- Observable effects of one run of checkServiceAvailability:
the argument of setAvailabilityData if it was called, the final value of
the error state, the list of onServicesFound invocations (each with its
argument), the number of onNoServices invocations, and whether the
network request was issued. -/
structure CheckEffects where
  availabilitySet : Option ServiceAvailabilityResponse
  errorSet : String
  servicesFoundCalls : List (List Service)
  noServicesCalls : ℕ
  networkCalled : Bool
deriving DecidableEq, Repr

/-- checkServiceAvailability of LocationBasedServiceFilter, as a function
of the token read from localStorage and the outcome of the axios POST to
/api/check-availability. axios rejects on every non-2xx status, so a
non-success HTTP response arrives as an HttpError. The location argument
only feeds the request body and does not influence the control flow, so
it is omitted from the effect computation. -/
def checkServiceAvailability (token : Option String)
    (backend : Except HttpError ServiceAvailabilityResponse) : CheckEffects :=
  if tokenFalsy token then
    { availabilitySet := none
      errorSet := "Please log in to check service availability"
      servicesFoundCalls := []
      noServicesCalls := 0
      networkCalled := false }
  else
    match backend with
    | .ok data =>
        if data.availability.servicesAvailable then
          { availabilitySet := some data
            errorSet := ""
            servicesFoundCalls := [data.services]
            noServicesCalls := 0
            networkCalled := true }
        else
          { availabilitySet := some data
            errorSet := ""
            servicesFoundCalls := []
            noServicesCalls := 1
            networkCalled := true }
    | .error e =>
        { availabilitySet := none
          errorSet := jsOrS e.message "Failed to check service availability"
          servicesFoundCalls := []
          noServicesCalls := 1
          networkCalled := true }

/-- C1: For every successful checkAvailability response, if
servicesAvailable is true then onServicesFound is invoked with exactly the
services list of the response, if it is false then onNoServices is
invoked, and never both for one response. -/
theorem checkAvailability_success_branches (token : Option String)
    (data : ServiceAvailabilityResponse) (h : tokenFalsy token = false) :
    (data.availability.servicesAvailable = true →
      (checkServiceAvailability token (.ok data)).servicesFoundCalls = [data.services] ∧
      (checkServiceAvailability token (.ok data)).noServicesCalls = 0) ∧
    (data.availability.servicesAvailable = false →
      (checkServiceAvailability token (.ok data)).noServicesCalls = 1 ∧
      (checkServiceAvailability token (.ok data)).servicesFoundCalls = []) ∧
    ¬((checkServiceAvailability token (.ok data)).servicesFoundCalls ≠ [] ∧
      (checkServiceAvailability token (.ok data)).noServicesCalls ≠ 0) := by
  simp only [checkServiceAvailability, h, Bool.false_eq_true, if_false]
  cases hb : data.availability.servicesAvailable <;> simp

/-- Witness for checkAvailability_success_branches at a concrete token and
response. -/
theorem checkAvailability_success_branches_witness :
    tokenFalsy (some "tok") = false ∧
    ((({ success := true
         customerLocation := { lat := 1, lng := 2 }
         availability := { servicesAvailable := true, totalServices := 0,
                           totalWashermen := 0, inRangeWashermen := 0,
                           outOfRangeWashermen := 0 }
         services := []
         message := "ok" } : ServiceAvailabilityResponse).availability.servicesAvailable = true →
      (checkServiceAvailability (some "tok")
        (.ok { success := true
               customerLocation := { lat := 1, lng := 2 }
               availability := { servicesAvailable := true, totalServices := 0,
                                 totalWashermen := 0, inRangeWashermen := 0,
                                 outOfRangeWashermen := 0 }
               services := []
               message := "ok" })).servicesFoundCalls = [[]] ∧
      (checkServiceAvailability (some "tok")
        (.ok { success := true
               customerLocation := { lat := 1, lng := 2 }
               availability := { servicesAvailable := true, totalServices := 0,
                                 totalWashermen := 0, inRangeWashermen := 0,
                                 outOfRangeWashermen := 0 }
               services := []
               message := "ok" })).noServicesCalls = 0)) :=
  ⟨by decide,
   fun _ =>
     ((checkAvailability_success_branches (some "tok")
       { success := true
         customerLocation := { lat := 1, lng := 2 }
         availability := { servicesAvailable := true, totalServices := 0,
                           totalWashermen := 0, inRangeWashermen := 0,
                           outOfRangeWashermen := 0 }
         services := []
         message := "ok" } (by decide)).1 rfl)⟩

/-- C2 counterexample: the catch branch of checkServiceAvailability does
not discriminate on HTTP status. A 401 response with no body message
yields the same generic failure message as a 500 response, not the
distinct Unauthenticated message used on the missing-token path, so
HTTP 401 is not mapped to an Unauthenticated condition. -/
theorem check401_not_mapped_to_unauthenticated :
    (checkServiceAvailability (some "tok")
      (.error { status := 401 })).errorSet =
      (checkServiceAvailability (some "tok")
        (.error { status := 500 })).errorSet ∧
    (checkServiceAvailability (some "tok")
      (.error { status := 401 })).errorSet ≠
      "Please log in to check service availability" := by
  constructor
  · rfl
  · decide

/-- C2 amended: with no (or an empty) bearer token, checkServiceAvailability
sets the log-in error message and makes no network call; on any non-2xx
HTTP failure, regardless of status (401 included), the error is set to the
body-provided message when that is a non-empty string and otherwise to the
generic failure message, and the onNoServices callback is invoked once
while onServicesFound is not. -/
theorem checkAvailability_error_handling (token : Option String)
    (backend : Except HttpError ServiceAvailabilityResponse) (e : HttpError)
    (hAbsent : tokenFalsy token = true) (hPresent : tokenFalsy (some "tok") = false) :
    ((checkServiceAvailability token backend).errorSet =
        "Please log in to check service availability" ∧
      (checkServiceAvailability token backend).networkCalled = false) ∧
    ((checkServiceAvailability (some "tok") (.error e)).errorSet =
        jsOrS e.message "Failed to check service availability" ∧
      (checkServiceAvailability (some "tok") (.error e)).noServicesCalls = 1 ∧
      (checkServiceAvailability (some "tok") (.error e)).servicesFoundCalls = [] ∧
      (checkServiceAvailability (some "tok") (.error e)).networkCalled = true) := by
  refine ⟨?_, ?_, ?_, ?_, ?_⟩ <;>
    simp [checkServiceAvailability, hAbsent, hPresent]

/-- Witness for checkAvailability_error_handling at a missing token and a
concrete 503 error. -/
theorem checkAvailability_error_handling_witness :
    tokenFalsy none = true ∧
    ((checkServiceAvailability none
        (.error { status := 503, message := some "down" })).errorSet =
      "Please log in to check service availability" ∧
      (checkServiceAvailability none
        (.error { status := 503, message := some "down" })).networkCalled = false) :=
  ⟨by decide,
   (checkAvailability_error_handling none
      (.error { status := 503, message := some "down" })
      { status := 503, message := some "down" } (by decide) (by decide)).1⟩

/-- AddressDetails interface of LocationBasedServiceFilter: each field is
optional, mirroring the TypeScript record whose fields may be undefined. -/
structure AddressDetails where
  houseNumber : Option String := none
  street : Option String := none
  landmark : Option String := none
  city : Option String := none
  state : Option String := none
  zip : Option String := none
deriving DecidableEq, Repr

/-- Models the JavaScript test `!x?.trim()`: true when the field is
undefined or trims to the empty string. -/
def optTrimFalsy (s : Option String) : Bool :=
  match s with
  | none => true
  | some v => jsTrim v = ""

/-- Models the JavaScript test `x?.length !== 6`: true when the field is
undefined (undefined is not 6) or its length differs from 6. -/
def optLenNeSix (s : Option String) : Bool :=
  match s with
  | none => true
  | some v => v.length ≠ 6

/-- validateAddressDetails of LocationBasedServiceFilter: the newErrors
record it builds, as an association list from field key to message, in
field order. Validation succeeds exactly when this list is empty. -/
def validateAddressDetails (d : AddressDetails) : List (String × String) :=
  (if optTrimFalsy d.houseNumber then
    [("houseNumber", "House/Flat/Block No. is required")] else []) ++
  (if optTrimFalsy d.street then [("street", "Street/Area is required")] else []) ++
  (if optTrimFalsy d.city then [("city", "City is required")] else []) ++
  (if optTrimFalsy d.state then [("state", "State is required")] else []) ++
  (if optTrimFalsy d.zip || optLenNeSix d.zip then
    [("zip", "Valid 6-digit pincode is required")] else [])

/-- Boolean result of validateAddressDetails:
`Object.keys(newErrors).length === 0`. -/
def addressvalid (d : AddressDetails) : Bool :=
  validateAddressDetails d = []

/-- The Save and Continue button handler of LocationBasedServiceFilter,
projected to whether the backend save call (saveLocationToBackend followed
by the availability re-check) is issued: the handler returns early when
validation fails. -/
def saveAndContinueIssuesSave (d : AddressDetails) : Bool :=
  addressvalid d

/-- The spec-side predicate on postal codes: exactly 6 characters, all
decimal digits. Used to compare the claimed validation rule with the
implemented one. -/
def isSixDigitPincode (z : String) : Bool :=
  z.length = 6 && z.toList.all Char.isDigit

/-- The unstructured address component object of a Nominatim geocoding
response, restricted to the keys the component reads. -/
structure NominatimAddress where
  house_number : Option String := none
  road : Option String := none
  suburb : Option String := none
  neighbourhood : Option String := none
  landmark : Option String := none
  public_building : Option String := none
  city : Option String := none
  town : Option String := none
  village : Option String := none
  county : Option String := none
  state : Option String := none
  postcode : Option String := none
deriving DecidableEq, Repr

/-- Models `[a, b, c].filter(Boolean)`: keeps the values that are defined
and non-empty. -/
def filterTruthy (xs : List (Option String)) : List String :=
  (xs.filterMap id).filter (fun s => s ≠ "")

/-- deriveAddressDetails of LocationBasedServiceFilter: heuristic mapping
from a Nominatim address object (possibly absent) to AddressDetails. -/
def deriveAddressDetails (addr : Option NominatimAddress) : AddressDetails :=
  match addr with
  | none => {}
  | some a =>
      { houseNumber := some (jsOrS a.house_number "")
        street := some (String.intercalate ", "
          (filterTruthy [a.road, a.suburb, a.neighbourhood]))
        landmark := some (jsOrS a.landmark (jsOrS a.public_building ""))
        city := some (jsOrS a.city (jsOrS a.town (jsOrS a.village (jsOrS a.county ""))))
        state := some (jsOrS a.state "")
        zip := some (jsOrS a.postcode "") }

/-- The detailed address record built by saveLocationToBackend and stored
under the deliveryAddress localStorage key. -/
structure DeliveryAddress where
  houseNo : String
  street : String
  landmark : String
  city : String
  state : String
  pincode : String
  fullAddress : String
  lat : ℚ
  lng : ℚ
deriving DecidableEq, Repr

/-- The detailedAddress value computed by saveLocationToBackend when
address details are provided. -/
def detailedAddressOf (loc : Location) (d : AddressDetails) : DeliveryAddress :=
  { houseNo := jsOrS d.houseNumber ""
    street := jsOrS d.street ""
    landmark := jsOrS d.landmark ""
    city := jsOrS d.city ""
    state := jsOrS d.state ""
    pincode := jsOrS d.zip ""
    fullAddress := String.intercalate ", "
      (filterTruthy [d.houseNumber, d.street, d.landmark, d.city, d.state, d.zip])
    lat := loc.lat
    lng := loc.lng }

/-- Observable effects of one run of saveLocationToBackend: whether the
POST to /api/user/location was issued, the deliveryAddress localStorage
write if it happened, and the user-visible error message it surfaced, if
any (the catch branch only writes to the console). -/
structure SaveEffects where
  networkCalled : Bool
  storedDeliveryAddress : Option DeliveryAddress
  surfacedError : Option String
deriving DecidableEq, Repr

/-- saveLocationToBackend of LocationBasedServiceFilter, as a function of
the token read from localStorage, the location, the optional address
details and the outcome of the axios POST. With no token it returns
silently; on a failed POST it logs to the console and surfaces nothing;
the deliveryAddress write happens only after a successful POST and only
when details were provided. -/
def saveLocationToBackend (token : Option String) (loc : Location)
    (details : Option AddressDetails) (backend : Except HttpError Unit) :
    SaveEffects :=
  if tokenFalsy token then
    { networkCalled := false, storedDeliveryAddress := none, surfacedError := none }
  else
    match backend with
    | .error _ =>
        { networkCalled := true, storedDeliveryAddress := none, surfacedError := none }
    | .ok _ =>
        match details with
        | some d =>
            { networkCalled := true
              storedDeliveryAddress := some (detailedAddressOf loc d)
              surfacedError := none }
        | none =>
            { networkCalled := true, storedDeliveryAddress := none
              surfacedError := none }

/-- Component state of LocationBasedServiceFilter, together with the two
localStorage slots it writes and the trace of onLocationSet callback
invocations. -/
structure FilterState where
  customerLocation : Option Location := none
  isDetectingLocation : Bool := false
  isCheckingAvailability : Bool := false
  availabilityData : Option ServiceAvailabilityResponse := none
  error : String := ""
  manualAddress : String := ""
  showManualInput : Bool := false
  showMap : Bool := false
  selectedMapLocation : Option Location := none
  showAddressForm : Bool := false
  addressDetails : AddressDetails := {}
  addressErrors : List (String × String) := []
  storedCustomerLocation : Option Location := none
  storedDeliveryAddress : Option DeliveryAddress := none
  onLocationSetCalls : List Location := []
deriving DecidableEq, Repr

/-- Outcome of the getCurrentLocation geolocation helper: a location, or
a rejection carrying the optional err.message. -/
inductive GeoOutcome where
  | success (loc : Location)
  | failure (message : Option String)
deriving DecidableEq, Repr

/-- detectCurrentLocation of LocationBasedServiceFilter. The reverse
argument models the best-effort Nominatim reverse-geocoding fetch on the
success path: none when the fetch or its JSON parsing threw, some a when
it returned a body whose address component is a. -/
def detectCurrentLocation (s : FilterState) (geo : GeoOutcome)
    (reverse : Option (Option NominatimAddress)) : FilterState :=
  match geo with
  | .failure msg =>
      { s with
        error := jsOrS msg
          "Unable to detect your location. Please try manual address input."
        showManualInput := true
        isDetectingLocation := false }
  | .success loc =>
      { s with
        customerLocation := some loc
        onLocationSetCalls := s.onLocationSetCalls ++ [loc]
        addressDetails :=
          match reverse with
          | none => {}
          | some a => deriveAddressDetails a
        showAddressForm := true
        storedCustomerLocation := some loc
        error := ""
        isDetectingLocation := false }

/-- One result object of a Nominatim forward-geocoding search: the parsed
lat and lon, the display_name string and the address component object. -/
structure GeoResult where
  lat : ℚ
  lon : ℚ
  display_name : String
  address : Option NominatimAddress := none
deriving DecidableEq, Repr

/-- Outcome of the Nominatim forward-geocoding fetch inside
handleManualAddressSubmit: a result list, or a thrown fetch/JSON error. -/
inductive GeocodeFetch where
  | ok (results : List GeoResult)
  | failed
deriving DecidableEq, Repr

/-- handleManualAddressSubmit of LocationBasedServiceFilter. -/
def handleManualAddressSubmit (s : FilterState) (fetch : GeocodeFetch) :
    FilterState :=
  if jsTrim s.manualAddress = "" then
    { s with error := "Please enter an address" }
  else
    match fetch with
    | .failed =>
        { s with
          error := "Failed to process address. Please try again."
          isCheckingAvailability := false }
    | .ok [] =>
        { s with
          error := "Address not found. Please try a different address."
          isCheckingAvailability := false }
    | .ok (r :: _) =>
        let location : Location :=
          { lat := r.lat, lng := r.lon, address := some r.display_name }
        { s with
          error := ""
          isCheckingAvailability := true
          customerLocation := some location
          onLocationSetCalls := s.onLocationSetCalls ++ [location]
          addressDetails := deriveAddressDetails r.address
          showAddressForm := true
          storedCustomerLocation := some location
          showManualInput := false }

/-- confirmMapLocation of LocationBasedServiceFilter: promotes the
selected map location to the customer location and notifies the parent;
it writes neither localStorage slot. -/
def confirmMapLocation (s : FilterState) : FilterState :=
  match s.selectedMapLocation with
  | none => s
  | some l =>
      { s with
        customerLocation := some l
        onLocationSetCalls := s.onLocationSetCalls ++ [l]
        showAddressForm := true }

/-- The state update performed by one run of checkServiceAvailability on
the component state: setAvailabilityData fires only on a successful
response, the error state always ends at the runs final error value, and
the in-flight flag is reset by the finally block. -/
def applyCheck (token : Option String)
    (backend : Except HttpError ServiceAvailabilityResponse)
    (s : FilterState) : FilterState :=
  let e := checkServiceAvailability token backend
  { s with
    availabilityData :=
      match e.availabilitySet with
      | some d => some d
      | none => s.availabilityData
    error := e.errorSet
    isCheckingAvailability := false }

/-- State of the usePWAStatus hook, together with the pwa-installed
localStorage flag. deferredPrompt records whether a beforeinstallprompt
event is currently captured. -/
structure PWAState where
  isInstalled : Bool := false
  isStandalone : Bool := false
  canInstall : Bool := false
  deferredPrompt : Bool := false
  storedPwaInstalled : Bool := false
deriving DecidableEq, Repr

/-- Outcome of the userChoice promise of a captured install prompt. -/
inductive UserChoice where
  | accepted
  | dismissed
deriving DecidableEq, Repr

/-- installPWA of usePWAStatus: throws when no prompt was captured;
otherwise shows the prompt, updates state on acceptance, and in both
outcomes clears the captured prompt. The thrown error is modelled as the
Except error carrying the error message. -/
def installPWA (s : PWAState) (choice : UserChoice) : Except String PWAState :=
  if !s.deferredPrompt then
    .error "PWA install prompt not available"
  else
    match choice with
    | .accepted =>
        .ok { s with
              isInstalled := true
              canInstall := false
              storedPwaInstalled := true
              deferredPrompt := false }
    | .dismissed =>
        .ok { s with deferredPrompt := false }

/-- Washerman record of the NearbyWashermenMap view; range is optional. -/
structure MapWasherman where
  id : String
  name : String
  contact : String
  range : Option ℚ := none
  locationLat : ℚ
  locationLng : ℚ
deriving DecidableEq, Repr

/-- The in-range classification of NearbyWashermenMap:
`distance <= (washerman.range || 500)` for the distance computed by
calculateDistance between the customer and the washerman. The distance
computation lives in utils/locationUtils, outside this repository
snapshot; the classification is a function of its value. -/
def inRange (distance : ℚ) (w : MapWasherman) : Bool :=
  distance ≤ jsOrQ w.range 500

/-- The effective radius the claim ascribes to a provider: the declared
service-range radius, defaulting to 500 only when it is unspecified. -/
def claimedEffectiveRange (w : MapWasherman) : ℚ :=
  w.range.getD 500

/-- Washerman record of the NearbyWashermenWithSlots view. -/
structure SlotWasherman where
  id : String
  name : String
  contact : String
  range : ℚ
  locationLat : ℚ
  locationLng : ℚ
  isAvailable : Option Bool := none
  totalAvailableSlots : Option ℚ := none
deriving DecidableEq, Repr

/-- Models the JavaScript truthiness of the selectedDate string state:
the empty string (no date chosen) is falsy. -/
def dateSelected (selectedDate : String) : Bool :=
  selectedDate ≠ ""

/-- The per-washerman isAvailable flag of NearbyWashermenWithSlots:
`selectedDate ? washerman.isAvailable : true`, with the undefined flag
coercing to false where the value is consumed in boolean position. -/
def slotViewIsAvailable (selectedDate : String) (w : SlotWasherman) : Bool :=
  if dateSelected selectedDate then w.isAvailable.getD false else true

/-- The per-washerman hasSlots flag of NearbyWashermenWithSlots:
`selectedDate ? (washerman.totalAvailableSlots || 0) > 0 : true`. -/
def slotViewHasSlots (selectedDate : String) (w : SlotWasherman) : Bool :=
  if dateSelected selectedDate then w.totalAvailableSlots.getD 0 > 0 else true

/-- The combined condition `isAvailable && hasSlots` that drives the green
marker colour, the Available title, full opacity and the Book Now button
in NearbyWashermenWithSlots. -/
def slotViewBookable (selectedDate : String) (w : SlotWasherman) : Bool :=
  slotViewIsAvailable selectedDate w && slotViewHasSlots selectedDate w

/-- Helper: the JavaScript string default never produces the empty string
when the fallback is non-empty. -/
theorem jsOrS_ne_empty (o : Option String) (d : String) (hd : d ≠ "") :
    jsOrS o d ≠ "" := by
  cases o with
  | none => simpa [jsOrS]
  | some v =>
      simp only [jsOrS]
      split
      · exact hd
      · assumption

/-- C3 counterexample: a provider with a declared service range of 0
meters is classified in range at distance 100, because the JavaScript
fallback `washerman.range || 500` also replaces a declared 0 with 500;
the claim, which defaults only for an unspecified range, requires the
classification to be out of range there. -/
theorem inRange_zero_range_counterexample :
    inRange 100
      { id := "w1", name := "n", contact := "c", range := some 0,
        locationLat := 0, locationLng := 0 } = true ∧
    ¬((100 : ℚ) ≤ claimedEffectiveRange
      { id := "w1", name := "n", contact := "c", range := some 0,
        locationLat := 0, locationLng := 0 }) := by
  constructor
  · decide
  · simp only [claimedEffectiveRange, Option.getD_some]
    norm_num

/-- C3 amended: the map view classifies a provider as in range exactly
when the computed distance is at most the effective radius, where the
effective radius is the declared range unless that is unspecified or 0,
in both of which cases it is 500 meters; the classification is a pure
function of distance and provider, and is antitone in the distance, so
increasing the distance past the radius flips it from in range to out of
range exactly once. -/
theorem inRange_iff_and_monotone (d d1 d2 : ℚ) (w : MapWasherman)
    (h : d1 ≤ d2) :
    (inRange d w = true ↔ d ≤ jsOrQ w.range 500) ∧
    (inRange d2 w = true → inRange d1 w = true) := by
  constructor
  · simp [inRange]
  · intro h2
    simp only [inRange, decide_eq_true_eq] at h2 ⊢
    exact le_trans h h2

/-- Witness for inRange_iff_and_monotone at concrete distances and a
concrete provider. -/
theorem inRange_iff_and_monotone_witness :
    (inRange 10
      { id := "w1", name := "n", contact := "c", range := none,
        locationLat := 0, locationLng := 0 } = true ↔
      (10 : ℚ) ≤ jsOrQ none 500) ∧
    (inRange 7
      { id := "w1", name := "n", contact := "c", range := none,
        locationLat := 0, locationLng := 0 } = true →
      inRange 3
        { id := "w1", name := "n", contact := "c", range := none,
          locationLat := 0, locationLng := 0 } = true) :=
  inRange_iff_and_monotone 10 3 7
    { id := "w1", name := "n", contact := "c", range := none,
      locationLat := 0, locationLng := 0 } (by norm_num)

/-- C4 counterexample: confirming a map-picked location updates the
in-memory customer location but leaves the persisted customerLocation
localStorage slot holding the previous location, so the map-pick
confirmation does not supersede the previous location in persisted
storage. -/
theorem confirmMapLocation_does_not_persist :
    ((confirmMapLocation
      { customerLocation := some { lat := 1, lng := 2, address := some "A" }
        storedCustomerLocation := some { lat := 1, lng := 2, address := some "A" }
        selectedMapLocation := some { lat := 3, lng := 4, address := some "B" }
      }).customerLocation = some { lat := 3, lng := 4, address := some "B" }) ∧
    ((confirmMapLocation
      { customerLocation := some { lat := 1, lng := 2, address := some "A" }
        storedCustomerLocation := some { lat := 1, lng := 2, address := some "A" }
        selectedMapLocation := some { lat := 3, lng := 4, address := some "B" }
      }).storedCustomerLocation = some { lat := 1, lng := 2, address := some "A" }) ∧
    ((confirmMapLocation
      { customerLocation := some { lat := 1, lng := 2, address := some "A" }
        storedCustomerLocation := some { lat := 1, lng := 2, address := some "A" }
        selectedMapLocation := some { lat := 3, lng := 4, address := some "B" }
      }).storedCustomerLocation ≠
     (confirmMapLocation
      { customerLocation := some { lat := 1, lng := 2, address := some "A" }
        storedCustomerLocation := some { lat := 1, lng := 2, address := some "A" }
        selectedMapLocation := some { lat := 3, lng := 4, address := some "B" }
      }).customerLocation) := by
  refine ⟨rfl, rfl, ?_⟩
  decide

/-- C4 amended: the in-memory confirmed location is a single optional
slot, so at most one confirmed Location is active; successful geolocation
detection and successful manual address entry supersede the previous
location in both the in-memory state and the persisted slot, while
map-pick confirmation supersedes it in the in-memory state and notifies
the parent but leaves the persisted slot unchanged. -/
theorem confirmed_location_supersession (s : FilterState) (loc l : Location)
    (r : Option (Option NominatimAddress)) (res : GeoResult)
    (rs : List GeoResult) (hm : jsTrim s.manualAddress ≠ "")
    (hs : s.selectedMapLocation = some l) :
    ((detectCurrentLocation s (.success loc) r).customerLocation = some loc ∧
     (detectCurrentLocation s (.success loc) r).storedCustomerLocation = some loc) ∧
    ((handleManualAddressSubmit s (.ok (res :: rs))).customerLocation =
        some { lat := res.lat, lng := res.lon, address := some res.display_name } ∧
     (handleManualAddressSubmit s (.ok (res :: rs))).storedCustomerLocation =
        some { lat := res.lat, lng := res.lon, address := some res.display_name }) ∧
    ((confirmMapLocation s).customerLocation = some l ∧
     (confirmMapLocation s).storedCustomerLocation = s.storedCustomerLocation ∧
     (confirmMapLocation s).onLocationSetCalls = s.onLocationSetCalls ++ [l]) := by
  refine ⟨⟨rfl, rfl⟩, ⟨?_, ?_⟩, ?_, ?_, ?_⟩ <;>
    simp [handleManualAddressSubmit, confirmMapLocation, hm, hs]

/-- Witness for confirmed_location_supersession at a concrete state with a
non-empty manual address and a selected map location. -/
theorem confirmed_location_supersession_witness :
    ((detectCurrentLocation
        { manualAddress := "x",
          selectedMapLocation := some { lat := 3, lng := 4 } }
        (.success { lat := 5, lng := 6 }) none).customerLocation =
          some { lat := 5, lng := 6 } ∧
     (detectCurrentLocation
        { manualAddress := "x",
          selectedMapLocation := some { lat := 3, lng := 4 } }
        (.success { lat := 5, lng := 6 }) none).storedCustomerLocation =
          some { lat := 5, lng := 6 }) ∧
    ((handleManualAddressSubmit
        { manualAddress := "x",
          selectedMapLocation := some { lat := 3, lng := 4 } }
        (.ok [{ lat := 7, lon := 8, display_name := "D" }])).customerLocation =
          some { lat := 7, lng := 8, address := some "D" } ∧
     (handleManualAddressSubmit
        { manualAddress := "x",
          selectedMapLocation := some { lat := 3, lng := 4 } }
        (.ok [{ lat := 7, lon := 8, display_name := "D" }])).storedCustomerLocation =
          some { lat := 7, lng := 8, address := some "D" }) ∧
    ((confirmMapLocation
        { manualAddress := "x",
          selectedMapLocation := some { lat := 3, lng := 4 } }).customerLocation =
          some { lat := 3, lng := 4 } ∧
     (confirmMapLocation
        { manualAddress := "x",
          selectedMapLocation := some { lat := 3, lng := 4 } }).storedCustomerLocation =
          ({ manualAddress := "x",
             selectedMapLocation := some { lat := 3, lng := 4 } } : FilterState).storedCustomerLocation ∧
     (confirmMapLocation
        { manualAddress := "x",
          selectedMapLocation := some { lat := 3, lng := 4 } }).onLocationSetCalls =
          ({ manualAddress := "x",
             selectedMapLocation := some { lat := 3, lng := 4 } } : FilterState).onLocationSetCalls ++
            [{ lat := 3, lng := 4 }]) :=
  confirmed_location_supersession
    { manualAddress := "x", selectedMapLocation := some { lat := 3, lng := 4 } }
    { lat := 5, lng := 6 } { lat := 3, lng := 4 } none
    { lat := 7, lon := 8, display_name := "D" } [] (by decide) rfl

/-- C5 counterexample: the zip check of validateAddressDetails only tests
the length of the field, never that its characters are digits, so an
address whose pincode is the six-letter string abcdef passes validation
and the Save and Continue handler issues the backend save. -/
theorem validation_accepts_nondigit_pincode :
    addressvalid
      { houseNumber := some "12", street := some "MG Road",
        city := some "Pune", state := some "MH", zip := some "abcdef" } = true ∧
    isSixDigitPincode "abcdef" = false ∧
    saveAndContinueIssuesSave
      { houseNumber := some "12", street := some "MG Road",
        city := some "Pune", state := some "MH", zip := some "abcdef" } = true := by
  refine ⟨?_, ?_, ?_⟩ <;> decide

/-- C5 amended: address confirmation succeeds exactly when house number,
street, city and state are present and non-blank after trimming and the
postal code is present, non-blank and exactly 6 characters long (whether
the characters are digits is not checked); when any of these fails, the
field-level error list is non-empty and the Save and Continue handler
returns before issuing the backend save call. -/
theorem addressValidation_characterisation (d : AddressDetails) :
    (addressvalid d = true ↔
      (optTrimFalsy d.houseNumber = false ∧ optTrimFalsy d.street = false ∧
       optTrimFalsy d.city = false ∧ optTrimFalsy d.state = false ∧
       optTrimFalsy d.zip = false ∧ optLenNeSix d.zip = false)) ∧
    (addressvalid d = false →
      validateAddressDetails d ≠ [] ∧ saveAndContinueIssuesSave d = false) := by
  cases h1 : optTrimFalsy d.houseNumber <;>
    cases h2 : optTrimFalsy d.street <;>
      cases h3 : optTrimFalsy d.city <;>
        cases h4 : optTrimFalsy d.state <;>
          cases h5 : optTrimFalsy d.zip <;>
            cases h6 : optLenNeSix d.zip <;>
              simp [addressvalid, validateAddressDetails,
                saveAndContinueIssuesSave, h1, h2, h3, h4, h5, h6]

/-- Witness for addressValidation_characterisation at a concrete address
record. -/
theorem addressValidation_characterisation_witness :
    (addressvalid
      { houseNumber := some "12", street := some "MG Road",
        city := some "Pune", state := some "MH", zip := some "411001" } = true ↔
      (optTrimFalsy (some "12") = false ∧ optTrimFalsy (some "MG Road") = false ∧
       optTrimFalsy (some "Pune") = false ∧ optTrimFalsy (some "MH") = false ∧
       optTrimFalsy (some "411001") = false ∧ optLenNeSix (some "411001") = false)) ∧
    (addressvalid
      { houseNumber := some "12", street := some "MG Road",
        city := some "Pune", state := some "MH", zip := some "411001" } = false →
      validateAddressDetails
        { houseNumber := some "12", street := some "MG Road",
          city := some "Pune", state := some "MH", zip := some "411001" } ≠ [] ∧
      saveAndContinueIssuesSave
        { houseNumber := some "12", street := some "MG Road",
          city := some "Pune", state := some "MH", zip := some "411001" } = false) :=
  addressValidation_characterisation
    { houseNumber := some "12", street := some "MG Road",
      city := some "Pune", state := some "MH", zip := some "411001" }

/-- C6: Manual address submission with a non-blank address: when forward
geocoding returns zero results, the AddressNotFound error message is set
and the confirmed location, the persisted slot and the parent callback
trace are all unchanged; when it returns at least one result, the stored
location is built from the first result and its address field is exactly
the display_name string of that result, and the same location is written
to the persisted slot. -/
theorem manualSubmit_geocode_outcomes (s : FilterState) (r : GeoResult)
    (rs : List GeoResult) (h : jsTrim s.manualAddress ≠ "") :
    ((handleManualAddressSubmit s (.ok [])).error =
        "Address not found. Please try a different address." ∧
     (handleManualAddressSubmit s (.ok [])).customerLocation = s.customerLocation ∧
     (handleManualAddressSubmit s (.ok [])).storedCustomerLocation =
        s.storedCustomerLocation ∧
     (handleManualAddressSubmit s (.ok [])).onLocationSetCalls =
        s.onLocationSetCalls) ∧
    ((handleManualAddressSubmit s (.ok (r :: rs))).customerLocation =
        some { lat := r.lat, lng := r.lon, address := some r.display_name } ∧
     (handleManualAddressSubmit s (.ok (r :: rs))).storedCustomerLocation =
        some { lat := r.lat, lng := r.lon, address := some r.display_name } ∧
     ((handleManualAddressSubmit s (.ok (r :: rs))).customerLocation.map
        Location.address) = some (some r.display_name)) := by
  refine ⟨⟨?_, ?_, ?_, ?_⟩, ?_, ?_, ?_⟩ <;>
    simp [handleManualAddressSubmit, h]

/-- Witness for manualSubmit_geocode_outcomes at a concrete state and
geocoding result. -/
theorem manualSubmit_geocode_outcomes_witness :
    ((handleManualAddressSubmit { manualAddress := "Baker Street" } (.ok [])).error =
        "Address not found. Please try a different address." ∧
     (handleManualAddressSubmit { manualAddress := "Baker Street" }
        (.ok [])).customerLocation =
        ({ manualAddress := "Baker Street" } : FilterState).customerLocation ∧
     (handleManualAddressSubmit { manualAddress := "Baker Street" }
        (.ok [])).storedCustomerLocation =
        ({ manualAddress := "Baker Street" } : FilterState).storedCustomerLocation ∧
     (handleManualAddressSubmit { manualAddress := "Baker Street" }
        (.ok [])).onLocationSetCalls =
        ({ manualAddress := "Baker Street" } : FilterState).onLocationSetCalls) ∧
    ((handleManualAddressSubmit { manualAddress := "Baker Street" }
        (.ok [{ lat := 51, lon := 0, display_name := "221B Baker Street, London" }])).customerLocation =
        some { lat := 51, lng := 0, address := some "221B Baker Street, London" } ∧
     (handleManualAddressSubmit { manualAddress := "Baker Street" }
        (.ok [{ lat := 51, lon := 0, display_name := "221B Baker Street, London" }])).storedCustomerLocation =
        some { lat := 51, lng := 0, address := some "221B Baker Street, London" } ∧
     ((handleManualAddressSubmit { manualAddress := "Baker Street" }
        (.ok [{ lat := 51, lon := 0, display_name := "221B Baker Street, London" }])).customerLocation.map
        Location.address) = some (some "221B Baker Street, London")) :=
  manualSubmit_geocode_outcomes { manualAddress := "Baker Street" }
    { lat := 51, lon := 0, display_name := "221B Baker Street, London" } []
    (by decide)

/-- C7: Running checkServiceAvailability a second time with the same token
and the same backend response replaces the stored availability state
rather than accumulating it: applying the induced state update twice is
the same as applying it once, and the per-run effects, being a function of
the token and the response alone, are identical across the two runs. -/
theorem checkAvailability_idempotent (token : Option String)
    (backend : Except HttpError ServiceAvailabilityResponse) (s : FilterState) :
    applyCheck token backend (applyCheck token backend s) =
      applyCheck token backend s := by
  simp only [applyCheck]
  cases h : (checkServiceAvailability token backend).availabilitySet <;> simp [h]

/-- C8: installPWA fails with the prompt-unavailable error whenever no
installation prompt is captured; with a captured prompt, acceptance marks
the app installed, clears the can-install flag and persists the installed
fact, while dismissal leaves the installed state and its persisted flag
unchanged; in both outcomes the captured prompt is cleared, so a second
call on the resulting state fails, and a captured prompt is used at most
once. -/
theorem installPWA_contract (s s1 t : PWAState) (c c2 : UserChoice)
    (hno : s.deferredPrompt = false) (hyes : s1.deferredPrompt = true)
    (hrun : installPWA s1 c = .ok t) :
    (installPWA s c = .error "PWA install prompt not available") ∧
    (installPWA s1 .accepted =
      .ok { s1 with isInstalled := true, canInstall := false,
                    storedPwaInstalled := true, deferredPrompt := false }) ∧
    (installPWA s1 .dismissed = .ok { s1 with deferredPrompt := false }) ∧
    (t.deferredPrompt = false ∧
     installPWA t c2 = .error "PWA install prompt not available") := by
  refine ⟨?_, ?_, ?_, ?_⟩
  · simp [installPWA, hno]
  · simp [installPWA, hyes]
  · simp [installPWA, hyes]
  · have ht : t.deferredPrompt = false := by
      cases c <;> simp [installPWA, hyes] at hrun <;> simp [← hrun]
    exact ⟨ht, by simp [installPWA, ht]⟩

/-- Witness for installPWA_contract: a state without a captured prompt, a
state with one, and the state produced by dismissing its prompt. -/
theorem installPWA_contract_witness :
    (installPWA { } .accepted = .error "PWA install prompt not available") ∧
    (installPWA { deferredPrompt := true } .accepted =
      .ok { ({ deferredPrompt := true } : PWAState) with
            isInstalled := true, canInstall := false,
            storedPwaInstalled := true, deferredPrompt := false }) ∧
    (installPWA { deferredPrompt := true } .dismissed =
      .ok { ({ deferredPrompt := true } : PWAState) with deferredPrompt := false }) ∧
    (({ } : PWAState).deferredPrompt = false ∧
     installPWA ({ } : PWAState) .accepted =
       .error "PWA install prompt not available") :=
  installPWA_contract { } { deferredPrompt := true } { } .dismissed .accepted
    rfl rfl rfl

/-- C9 counterexample: a failing POST in saveLocationToBackend is only
logged to the console; the effects of a concrete failing save carry no
user-visible message even though the network call was made, so a failure
of the backend location-save call is silently absorbed. -/
theorem saveFailure_not_surfaced :
    (saveLocationToBackend (some "tok") { lat := 1, lng := 2 } none
      (.error { status := 500, message := some "boom" })).surfacedError = none ∧
    (saveLocationToBackend (some "tok") { lat := 1, lng := 2 } none
      (.error { status := 500, message := some "boom" })).networkCalled = true := by
  exact ⟨rfl, rfl⟩

/-- C9 amended: geolocation failure, a thrown geocoding fetch, an empty
geocoding result, a failed availability check and a failed address
validation each surface a non-empty user-visible message or error list,
while best-effort address-detail enrichment failure degrades silently to
blank fields and a failed backend location-save call surfaces nothing. -/
theorem error_surfacing_policy (s s2 : FilterState) (msg : Option String)
    (e : HttpError) (t : Option String) (loc : Location)
    (det : Option AddressDetails) (ad : AddressDetails)
    (ht : tokenFalsy t = false) (h2 : jsTrim s2.manualAddress ≠ "") :
    ((detectCurrentLocation s (.failure msg) none).error ≠ "") ∧
    ((handleManualAddressSubmit s2 .failed).error ≠ "") ∧
    ((handleManualAddressSubmit s2 (.ok [])).error ≠ "") ∧
    ((checkServiceAvailability t (.error e)).errorSet ≠ "") ∧
    (addressvalid ad = false → validateAddressDetails ad ≠ []) ∧
    ((detectCurrentLocation s (.success loc) none).addressDetails = { } ∧
     (detectCurrentLocation s (.success loc) none).error = "") ∧
    ((saveLocationToBackend t loc det (.error e)).surfacedError = none) := by
  refine ⟨?_, ?_, ?_, ?_, ?_, ⟨rfl, rfl⟩, ?_⟩
  · exact jsOrS_ne_empty msg _ (by decide)
  · simp [handleManualAddressSubmit, h2]
  · simp [handleManualAddressSubmit, h2]
  · simp only [checkServiceAvailability, ht, Bool.false_eq_true, if_false]
    exact jsOrS_ne_empty e.message _ (by decide)
  · intro hv
    simp only [addressvalid, decide_eq_true_eq] at hv
    intro hc
    simp [hc] at hv
  · simp [saveLocationToBackend, ht]

/-- Witness for error_surfacing_policy at concrete states, a concrete
error and a concrete invalid address record. -/
theorem error_surfacing_policy_witness :
    ((detectCurrentLocation { } (.failure none) none).error ≠ "") ∧
    ((handleManualAddressSubmit { manualAddress := "x" } .failed).error ≠ "") ∧
    ((handleManualAddressSubmit { manualAddress := "x" } (.ok [])).error ≠ "") ∧
    ((checkServiceAvailability (some "tok")
        (.error { status := 500 })).errorSet ≠ "") ∧
    (addressvalid { } = false → validateAddressDetails { } ≠ []) ∧
    ((detectCurrentLocation { } (.success { lat := 1, lng := 2 }) none).addressDetails = { } ∧
     (detectCurrentLocation { } (.success { lat := 1, lng := 2 }) none).error = "") ∧
    ((saveLocationToBackend (some "tok") { lat := 1, lng := 2 } none
        (.error { status := 500 })).surfacedError = none) :=
  error_surfacing_policy { } { manualAddress := "x" } none { status := 500 }
    (some "tok") { lat := 1, lng := 2 } none { } (by decide) (by decide)

/-- C10: In the nearby-washermen-with-slots view, when no service date is
selected every fetched washerman is rendered available and bookable
regardless of its isAvailable flag and totalAvailableSlots value, and
when a date is selected the rendering condition is exactly the
conjunction of the date-scoped isAvailable flag and a positive
totalAvailableSlots count. -/
theorem slotView_date_gating (selectedDate : String) (w w2 : SlotWasherman)
    (h : selectedDate ≠ "") :
    slotViewBookable "" w = true ∧
    slotViewBookable selectedDate w2 =
      (w2.isAvailable.getD false && decide (w2.totalAvailableSlots.getD 0 > 0)) := by
  constructor
  · simp [slotViewBookable, slotViewIsAvailable, slotViewHasSlots, dateSelected]
  · simp [slotViewBookable, slotViewIsAvailable, slotViewHasSlots, dateSelected, h]

/-- Witness for slotView_date_gating: an unavailable washerman with no
slots is rendered bookable with no date selected, and not bookable on a
selected date. -/
theorem slotView_date_gating_witness :
    slotViewBookable ""
      { id := "w1", name := "n", contact := "c", range := 500,
        locationLat := 0, locationLng := 0, isAvailable := some false,
        totalAvailableSlots := some 0 } = true ∧
    slotViewBookable "2026-10-12"
      { id := "w1", name := "n", contact := "c", range := 500,
        locationLat := 0, locationLng := 0, isAvailable := some false,
        totalAvailableSlots := some 0 } =
      ((some false).getD false &&
        decide ((Option.getD (some (0 : ℚ)) 0) > 0)) :=
  slotView_date_gating "2026-10-12"
    { id := "w1", name := "n", contact := "c", range := 500,
      locationLat := 0, locationLng := 0, isAvailable := some false,
      totalAvailableSlots := some 0 }
    { id := "w1", name := "n", contact := "c", range := 500,
      locationLat := 0, locationLng := 0, isAvailable := some false,
      totalAvailableSlots := some 0 }
    (by decide)
